import Mathlib

/-!
# Verification of the food_expense_tracker core

Shallow embedding of the repository's core (`db.py`, `compute.py`,
`models.py`) and proofs of the specification's claims about it.

Modelling conventions:
* Python `float` amounts become `ℚ` (all claim-level computations are exact).
* The SQLite table of `SQLiteExpenseRepository` becomes a `Store`: the list of
  rows plus the next `AUTOINCREMENT` id.
* `strftime` component extraction and the bound text parameters of
  `_build_where_clause` are modelled as little-endian decimal digit lists
  (`List ℕ`): two decimal numerals are equal as strings iff their digit lists
  are equal, so TEXT equality in SQL becomes list equality here.
* A Python `dict` of totals becomes the lookup function `String → Option ℚ`.
-/

/-- A calendar date, as stored in the `date TEXT` column in ISO form
`YYYY-MM-DD` (`models.py` uses `datetime.date`; `db.py` stores
`expense.date.isoformat()`). -/
@[ext]
structure Date where
  y : ℕ
  m : ℕ
  d : ℕ
deriving DecidableEq, Repr

/-- A persisted expense row (`models.py`'s `Expense` dataclass with the id
assigned, as returned by `list_all`). -/
structure Expense where
  id : ℕ
  spender : String
  date : Date
  shop : String
  amount : ℚ
deriving DecidableEq, Repr

/-- The caller-supplied fields of an expense before persistence
(`Expense` with `id=None`; `add` inserts exactly these four fields). -/
structure ExpenseData where
  spender : String
  date : Date
  shop : String
  amount : ℚ
deriving DecidableEq, Repr

/-- State of the `expenses` SQLite table: the rows plus the next value the
`INTEGER PRIMARY KEY AUTOINCREMENT` column will assign. -/
structure Store where
  rows : List Expense
  nextId : ℕ
deriving DecidableEq, Repr

/-- A freshly created database (`AUTOINCREMENT` assigns 1 first). -/
def emptyStore : Store := ⟨[], 1⟩

/-- The optional year/month/day filter taken by `list_all` and `get_totals`
(Python parameter order: month, year, day). -/
structure DateFilter where
  month : Option ℕ := none
  year : Option ℕ := none
  day : Option ℕ := none
deriving DecidableEq, Repr

namespace SQLiteExpenseRepository

/-- The id `AUTOINCREMENT` will assign to the next inserted row. -/
def assignedId (st : Store) : ℕ := st.nextId

/-- The row built by the `INSERT` statement in `add`: the four caller fields
plus the auto-assigned id. -/
def mkExpense (i : ℕ) (e : ExpenseData) : Expense :=
  ⟨i, e.spender, e.date, e.shop, e.amount⟩

/-- `SQLiteExpenseRepository.add`: inserts the four caller-supplied fields;
the id is assigned by `AUTOINCREMENT`.  The Python method is annotated
`-> None` and has no `return` statement, so its returned value — modelled as
the second component — is `none`, not the assigned id. -/
def add (st : Store) (e : ExpenseData) : Store × Option ℕ :=
  (⟨st.rows ++ [mkExpense st.nextId e], st.nextId + 1⟩, none)

/-- Little-endian decimal digits of `n`, with explicit recursion depth so the
definition is structurally recursive. -/
def decReprAux : ℕ → ℕ → List ℕ
  | 0, _ => []
  | fuel + 1, n => if n = 0 then [] else n % 10 :: decReprAux fuel (n / 10)

/-- Little-endian decimal digit list of `n`, as the text of `str(n)`:
two numerals are equal as strings iff these lists are equal.
(an empty digit list would model `""`, but `str(0) = "0"`, hence the
special case). -/
def decRepr (n : ℕ) : List ℕ :=
  if n = 0 then [0] else decReprAux n n

/-- `decRepr` zero-padded to width `w`, as the text produced by
`strftime('%Y', ...)` (w = 4), `strftime('%m'/'%d', ...)` and Python's
`f"{n:02d}"` (w = 2).  Padding with most-significant zeros appends zeros to
the little-endian list. -/
def padRepr (w : ℕ) (n : ℕ) : List ℕ :=
  decRepr n ++ List.replicate (w - (decRepr n).length) 0

/-- The WHERE clause built by `_build_where_clause`, evaluated on a row:
each supplied component compares the zero-padded `strftime` text of the
stored date against the bound parameter text (`str(year)` unpadded,
`f"{month:02d}"` and `f"{day:02d}"` padded to two digits). -/
def matchesFilter (f : DateFilter) (r : Expense) : Bool :=
  (match f.year with
   | none => true
   | some fy => padRepr 4 r.date.y == decRepr fy) &&
  (match f.month with
   | none => true
   | some fm => padRepr 2 r.date.m == padRepr 2 fm) &&
  (match f.day with
   | none => true
   | some fd => padRepr 2 r.date.d == padRepr 2 fd)

/-- Strict lexicographic order on dates; on valid stored dates this is
exactly the TEXT order of their fixed-width ISO `YYYY-MM-DD` strings, which
`ORDER BY date ASC` uses. -/
def Date.lt (a b : Date) : Prop :=
  a.y < b.y ∨ (a.y = b.y ∧ (a.m < b.m ∨ (a.m = b.m ∧ a.d < b.d)))

instance : DecidableRel Date.lt := fun a b => by
  unfold Date.lt; infer_instance

/-- The total preorder realised by `ORDER BY date ASC, id DESC`. -/
def rowLe (a b : Expense) : Prop :=
  Date.lt a.date b.date ∨ (a.date = b.date ∧ b.id ≤ a.id)

instance : DecidableRel rowLe := fun a b => by
  unfold rowLe; infer_instance

instance : IsTotal Expense rowLe where
  total a b := by
    unfold rowLe Date.lt
    rcases Nat.lt_trichotomy a.date.y b.date.y with h | h | h
    · exact Or.inl (Or.inl (Or.inl h))
    · rcases Nat.lt_trichotomy a.date.m b.date.m with h2 | h2 | h2
      · exact Or.inl (Or.inl (Or.inr ⟨h, Or.inl h2⟩))
      · rcases Nat.lt_trichotomy a.date.d b.date.d with h3 | h3 | h3
        · exact Or.inl (Or.inl (Or.inr ⟨h, Or.inr ⟨h2, h3⟩⟩))
        · have hdate : a.date = b.date := Date.ext h h2 h3
          rcases Nat.le_total b.id a.id with h4 | h4
          · exact Or.inl (Or.inr ⟨hdate, h4⟩)
          · exact Or.inr (Or.inr ⟨hdate.symm, h4⟩)
        · exact Or.inr (Or.inl (Or.inr ⟨h.symm, Or.inr ⟨h2.symm, h3⟩⟩))
      · exact Or.inr (Or.inl (Or.inr ⟨h.symm, Or.inl h2⟩))
    · exact Or.inr (Or.inl (Or.inl h))

theorem Date.lt_trans {a b c : Date} (h1 : Date.lt a b) (h2 : Date.lt b c) :
    Date.lt a c := by
  unfold Date.lt at *; omega

instance : IsTrans Expense rowLe where
  trans a b c h1 h2 := by
    rcases h1 with h1 | ⟨h1, h1'⟩
    · rcases h2 with h2 | ⟨h2, h2'⟩
      · exact Or.inl (Date.lt_trans h1 h2)
      · exact Or.inl (h2 ▸ h1)
    · rcases h2 with h2 | ⟨h2, h2'⟩
      · exact Or.inl (h1 ▸ h2)
      · exact Or.inr ⟨h1.trans h2, le_trans h2' h1'⟩

/-- `SQLiteExpenseRepository.list_all`: the rows matching the WHERE clause,
in `ORDER BY date ASC, id DESC` order. -/
def list_all (f : DateFilter) (st : Store) : List Expense :=
  List.insertionSort rowLe (st.rows.filter (matchesFilter f))

/-- A totals mapping, as the lookup behaviour of the Python dict returned by
`get_totals` (and consumed by `compute_balance_message` via `.get`). -/
def Totals := String → Option ℚ

/-- `SQLiteExpenseRepository.get_totals`: `GROUP BY spender, SUM(amount)`
over the rows matching the same WHERE clause; a spender with no matching row
has no entry. -/
def get_totals (f : DateFilter) (st : Store) : Totals := fun s =>
  let xs := (st.rows.filter (matchesFilter f)).filter (fun r => r.spender == s)
  if xs.isEmpty then none else some ((xs.map Expense.amount).sum)

end SQLiteExpenseRepository

/-- Round-half-to-even to an integer, as Python's float formatting rounds.
(Only exact multiples of a cent are reached by the claims, where every
rounding rule agrees.) -/
def roundHE (q : ℚ) : ℤ :=
  let f := ⌊q⌋
  if q - f < 1/2 then f
  else if 1/2 < q - f then f + 1
  else if f % 2 = 0 then f else f + 1

/-- Python's `f"{x:.2f}"` on the nonnegative values it is applied to:
two digits after the decimal point. -/
def fmt2 (q : ℚ) : String :=
  let c := (roundHE (q * 100)).toNat
  toString (c / 100) ++ "." ++ (if c % 100 < 10 then "0" else "") ++ toString (c % 100)

/-- `compute.py`'s `compute_balance_message`, line for line: missing keys read
as 0, an exact zero total short-circuits, then the equal-split rule with the
`1e-6` tolerance. -/
def compute_balance_message (t : SQLiteExpenseRepository.Totals) : String :=
  let shakib_total : ℚ := (t "Shakib").getD 0
  let junit_total : ℚ := (t "Junit").getD 0
  let total_spent := shakib_total + junit_total
  if total_spent = 0 then
    "No expenses recorded for this period."
  else
    let equal_share := total_spent / 2
    let diff := shakib_total - equal_share
    if |diff| < 1/1000000 then
      "Both Shakib and Junit have spent equally. No one owes anything."
    else if 0 < diff then
      "Junit owes Shakib " ++ fmt2 diff ++ "$."
    else
      "Shakib owes Junit " ++ fmt2 (-diff) ++ "$."

/-- The two-entry dict `{"Shakib": a, "Junit": b}`. -/
def mkTotals (a b : ℚ) : SQLiteExpenseRepository.Totals := fun s =>
  if s = "Shakib" then some a else if s = "Junit" then some b else none

/-- The empty dict `{}`. -/
def emptyTotals : SQLiteExpenseRepository.Totals := fun _ => none

/-- The body of `compute_balance_message` as a function of the two extracted
totals; `compute_balance_message t` is definitionally
`computePair ((t "Shakib").getD 0) ((t "Junit").getD 0)`. -/
def computePair (a b : ℚ) : String :=
  if a + b = 0 then
    "No expenses recorded for this period."
  else
    if |a - (a + b) / 2| < 1/1000000 then
      "Both Shakib and Junit have spent equally. No one owes anything."
    else if 0 < a - (a + b) / 2 then
      "Junit owes Shakib " ++ fmt2 (a - (a + b) / 2) ++ "$."
    else
      "Shakib owes Junit " ++ fmt2 (-(a - (a + b) / 2)) ++ "$."

theorem compute_eq_pair (t : SQLiteExpenseRepository.Totals) :
    compute_balance_message t = computePair ((t "Shakib").getD 0) ((t "Junit").getD 0) := rfl

/-! ## Decimal-representation lemmas -/

namespace SQLiteExpenseRepository

theorem decReprAux_eq (fuel n : ℕ) (h : n ≤ fuel) :
    decReprAux fuel n = Nat.digits 10 n := by
  induction fuel generalizing n with
  | zero =>
    have hn : n = 0 := by omega
    subst hn
    simp [decReprAux]
  | succ fuel ih =>
    by_cases hn : n = 0
    · subst hn; simp [decReprAux]
    · have hpos : 0 < n := Nat.pos_of_ne_zero hn
      have h10 : n / 10 ≤ fuel := by
        have := Nat.div_lt_self hpos (by norm_num : 1 < 10)
        omega
      simp only [decReprAux, if_neg hn]
      rw [ih _ h10, ← Nat.digits_def' (by norm_num : (1:ℕ) < 10) hpos]

theorem decRepr_eq (n : ℕ) :
    decRepr n = if n = 0 then [0] else Nat.digits 10 n := by
  by_cases h : n = 0 <;> simp [decRepr, h, decReprAux_eq n n le_rfl]

theorem ofDigits_decRepr (n : ℕ) : Nat.ofDigits 10 (decRepr n) = n := by
  rw [decRepr_eq]
  by_cases h : n = 0
  · subst h; simp
  · rw [if_neg h, Nat.ofDigits_digits]

theorem ofDigits_replicate_zero (k : ℕ) :
    Nat.ofDigits 10 (List.replicate k 0) = 0 := by
  induction k with
  | zero => simp
  | succ k ih => rw [List.replicate_succ, Nat.ofDigits_cons, ih]

theorem ofDigits_padRepr (w n : ℕ) : Nat.ofDigits 10 (padRepr w n) = n := by
  rw [padRepr, Nat.ofDigits_append, ofDigits_decRepr, ofDigits_replicate_zero]
  omega

theorem padRepr_inj {w m n : ℕ} (h : padRepr w m = padRepr w n) : m = n := by
  have h2 := congrArg (Nat.ofDigits 10) h
  rwa [ofDigits_padRepr, ofDigits_padRepr] at h2

/-- The year condition of the WHERE clause: the 4-padded stored year equals
the unpadded filter-year text iff the years are equal — provided the filter
year has at least four digits. -/
theorem yearCond_iff {ry fy : ℕ} (hfy : 1000 ≤ fy) :
    padRepr 4 ry = decRepr fy ↔ ry = fy := by
  constructor
  · intro h
    have h2 := congrArg (Nat.ofDigits 10) h
    rwa [ofDigits_padRepr, ofDigits_decRepr] at h2
  · rintro rfl
    have h0 : ry ≠ 0 := by omega
    have hlen : 4 ≤ (decRepr ry).length := by
      rw [decRepr_eq, if_neg h0]
      have h1 : ry < 10 ^ (Nat.digits 10 ry).length :=
        Nat.lt_base_pow_length_digits (by norm_num)
      by_contra hcon
      push_neg at hcon
      have h2 : (10:ℕ) ^ (Nat.digits 10 ry).length ≤ 10 ^ 3 :=
        Nat.pow_le_pow_right (by norm_num) (by omega)
      norm_num at h2
      omega
    rw [padRepr, Nat.sub_eq_zero_of_le hlen, List.replicate_zero, List.append_nil]

/-- The month/day condition of the WHERE clause: both sides are 2-padded, so
the condition holds iff the components are equal (any width, any values). -/
theorem twoDigitCond_iff {rm fm : ℕ} :
    padRepr 2 rm = padRepr 2 fm ↔ rm = fm :=
  ⟨padRepr_inj, fun h => h ▸ rfl⟩

/-- The WHERE clause, characterized componentwise (for filter years of at
least four digits). -/
theorem matchesFilter_iff (f : DateFilter) (r : Expense)
    (hfy : ∀ fy ∈ f.year, 1000 ≤ fy) :
    matchesFilter f r = true ↔
      (∀ fy ∈ f.year, r.date.y = fy) ∧
      (∀ fm ∈ f.month, r.date.m = fm) ∧
      (∀ fd ∈ f.day, r.date.d = fd) := by
  obtain ⟨fm, fy, fd⟩ := f
  cases fy with
  | none =>
    cases fm <;> cases fd <;>
      simp [matchesFilter, twoDigitCond_iff]
  | some y =>
    have hy : 1000 ≤ y := hfy y rfl
    cases fm <;> cases fd <;>
      simp [matchesFilter, yearCond_iff hy, twoDigitCond_iff, and_assoc]

end SQLiteExpenseRepository

/-! ## Balance-calculator helper lemmas -/

theorem compute_emptyTotals : compute_balance_message emptyTotals = computePair 0 0 := rfl

theorem compute_mkTotals (a b : ℚ) :
    compute_balance_message (mkTotals a b) = computePair a b := rfl

theorem computePair_no_expenses {a b : ℚ} (h : a + b = 0) :
    computePair a b = "No expenses recorded for this period." := by
  unfold computePair
  rw [if_pos h]

theorem computePair_equal {a b d : ℚ} (hd : a - (a + b) / 2 = d)
    (h1 : ¬(a + b = 0)) (h2 : |d| < 1/1000000) :
    computePair a b = "Both Shakib and Junit have spent equally. No one owes anything." := by
  unfold computePair
  rw [hd, if_neg h1, if_pos h2]

theorem computePair_junit_owes {a b d : ℚ} (hd : a - (a + b) / 2 = d)
    (h1 : ¬(a + b = 0)) (h2 : ¬(|d| < 1/1000000)) (h3 : 0 < d) :
    computePair a b = "Junit owes Shakib " ++ fmt2 d ++ "$." := by
  unfold computePair
  rw [hd, if_neg h1, if_neg h2, if_pos h3]

theorem computePair_shakib_owes {a b d : ℚ} (hd : a - (a + b) / 2 = d)
    (h1 : ¬(a + b = 0)) (h2 : ¬(|d| < 1/1000000)) (h3 : ¬(0 < d)) :
    computePair a b = "Shakib owes Junit " ++ fmt2 (-d) ++ "$." := by
  unfold computePair
  rw [hd, if_neg h1, if_neg h2, if_neg h3]

theorem fmt2_fifty : fmt2 50 = "50.00" := by
  norm_num [fmt2, roundHE]
  rfl

theorem fmt2_fifteen : fmt2 15 = "15.00" := by
  norm_num [fmt2, roundHE]
  rfl

theorem fmt2_forty : fmt2 40 = "40.00" := by
  norm_num [fmt2, roundHE]
  rfl

/-! ## Claim C4 -/

/-- C4: the four literal balance edge cases: empty mapping, equal spending,
Shakib ahead by 100, Junit ahead by 30. -/
theorem balance_edge_cases :
    compute_balance_message emptyTotals = "No expenses recorded for this period." ∧
    compute_balance_message (mkTotals 50 50)
      = "Both Shakib and Junit have spent equally. No one owes anything." ∧
    compute_balance_message (mkTotals 100 0) = "Junit owes Shakib 50.00$." ∧
    compute_balance_message (mkTotals 0 30) = "Shakib owes Junit 15.00$." := by
  refine ⟨?_, ?_, ?_, ?_⟩
  · rw [compute_emptyTotals]
    exact computePair_no_expenses (by norm_num)
  · rw [compute_mkTotals]
    exact computePair_equal (by norm_num : (50:ℚ) - (50 + 50) / 2 = 0) (by norm_num) (by norm_num)
  · rw [compute_mkTotals,
      computePair_junit_owes (by norm_num : (100:ℚ) - (100 + 0) / 2 = 50)
        (by norm_num) (by norm_num) (by norm_num),
      fmt2_fifty]
    decide
  · rw [compute_mkTotals,
      computePair_shakib_owes (by norm_num : (0:ℚ) - (0 + 30) / 2 = -15)
        (by norm_num) (by norm_num) (by norm_num)]
    rw [show -(-15 : ℚ) = 15 by norm_num, fmt2_fifteen]
    decide

/-! ## Claim C5 -/

/-- C5: whenever the two extracted totals (missing keys read as 0) sum to exactly
zero, the function returns the no-expenses message: the zero-total guard fires
before the division computing the equal share, so no division result ever reaches
the caller in that case. -/
theorem balance_zero_total_guard (t : SQLiteExpenseRepository.Totals)
    (h : (t "Shakib").getD 0 + (t "Junit").getD 0 = 0) :
    compute_balance_message t = "No expenses recorded for this period." := by
  rw [compute_eq_pair]
  exact computePair_no_expenses h

/-- C5 witness: the empty mapping satisfies the zero-sum hypothesis. -/
theorem balance_zero_total_guard_witness :
    ((emptyTotals "Shakib").getD 0 + (emptyTotals "Junit").getD 0 = 0) ∧
    compute_balance_message emptyTotals = "No expenses recorded for this period." :=
  ⟨by simp [emptyTotals], balance_zero_total_guard emptyTotals (by simp [emptyTotals])⟩

/-! ## Claim C8 -/

/-- C8: swapping the two totals swaps the message: both sides hit the same branch
(no-expenses, equal, or a positive owed amount d) and the owing direction flips
with the same formatted amount. -/
theorem balance_symmetry (a b : ℚ) :
    (compute_balance_message (mkTotals a b) = "No expenses recorded for this period." ∧
     compute_balance_message (mkTotals b a) = "No expenses recorded for this period.") ∨
    (compute_balance_message (mkTotals a b)
        = "Both Shakib and Junit have spent equally. No one owes anything." ∧
     compute_balance_message (mkTotals b a)
        = "Both Shakib and Junit have spent equally. No one owes anything.") ∨
    (∃ d : ℚ, 0 < d ∧
      ((compute_balance_message (mkTotals a b) = "Junit owes Shakib " ++ fmt2 d ++ "$." ∧
        compute_balance_message (mkTotals b a) = "Shakib owes Junit " ++ fmt2 d ++ "$.") ∨
       (compute_balance_message (mkTotals a b) = "Shakib owes Junit " ++ fmt2 d ++ "$." ∧
        compute_balance_message (mkTotals b a) = "Junit owes Shakib " ++ fmt2 d ++ "$."))) := by
  rw [compute_mkTotals, compute_mkTotals]
  by_cases h0 : a + b = 0
  · exact Or.inl ⟨computePair_no_expenses h0, computePair_no_expenses (by linarith)⟩
  · have h0' : ¬(b + a = 0) := fun hc => h0 (by linarith)
    by_cases heps : |a - (a + b) / 2| < 1/1000000
    · have hneg : b - (b + a) / 2 = -(a - (a + b) / 2) := by ring
      have heps' : |b - (b + a) / 2| < 1/1000000 := by
        rw [hneg, abs_neg]
        exact heps
      exact Or.inr (Or.inl
        ⟨computePair_equal rfl h0 heps, computePair_equal rfl h0' heps'⟩)
    · have hneg : b - (b + a) / 2 = -(a - (a + b) / 2) := by ring
      have heps2 : ¬(|-(a - (a + b) / 2)| < 1/1000000) := by
        rw [abs_neg]
        exact heps
      by_cases hpos : 0 < a - (a + b) / 2
      · refine Or.inr (Or.inr ⟨a - (a + b) / 2, hpos, Or.inl ⟨?_, ?_⟩⟩)
        · exact computePair_junit_owes rfl h0 heps hpos
        · have hnpos : ¬(0 < -(a - (a + b) / 2)) := by linarith
          have h := computePair_shakib_owes hneg h0' heps2 hnpos
          rwa [neg_neg] at h
      · have hne0 : a - (a + b) / 2 ≠ 0 := by
          intro hz
          apply heps
          rw [hz]
          norm_num
        have hlt : a - (a + b) / 2 < 0 := lt_of_le_of_ne (not_lt.mp hpos) hne0
        refine Or.inr (Or.inr ⟨-(a - (a + b) / 2), by linarith, Or.inr ⟨?_, ?_⟩⟩)
        · exact computePair_shakib_owes rfl h0 heps hpos
        · have hpos2 : 0 < -(a - (a + b) / 2) := by linarith
          exact computePair_junit_owes hneg h0' heps2 hpos2

/-! ## Claim C10 -/

/-- C10: the message depends only on the values at keys "Shakib" and "Junit"
(missing keys read as 0); all other entries of the mapping are irrelevant. -/
theorem balance_two_key_dependence (t1 t2 : SQLiteExpenseRepository.Totals)
    (hS : (t1 "Shakib").getD 0 = (t2 "Shakib").getD 0)
    (hJ : (t1 "Junit").getD 0 = (t2 "Junit").getD 0) :
    compute_balance_message t1 = compute_balance_message t2 := by
  rw [compute_eq_pair, compute_eq_pair, hS, hJ]

/-- A totals mapping sending every key other than the two parties to 99. -/
def aliceTotals : SQLiteExpenseRepository.Totals := fun s =>
  if s = "Shakib" then some 7 else if s = "Junit" then some 3 else some 99

/-- C10 witness: a mapping with extra entries yields the same message as the
two-entry mapping agreeing on the two keys. -/
theorem balance_two_key_dependence_witness :
    ((mkTotals 7 3 "Shakib").getD 0 = (aliceTotals "Shakib").getD 0) ∧
    ((mkTotals 7 3 "Junit").getD 0 = (aliceTotals "Junit").getD 0) ∧
    compute_balance_message (mkTotals 7 3) = compute_balance_message aliceTotals :=
  ⟨rfl, rfl, balance_two_key_dependence (mkTotals 7 3) aliceTotals rfl rfl⟩

/-! ## Concrete scenario (spec §8 end-to-end) and store helper lemmas -/

/-- First add of the end-to-end scenario. -/
def shakibExpense : ExpenseData := ⟨"Shakib", ⟨2024, 3, 5⟩, "Costco", 100⟩

/-- Second add of the end-to-end scenario. -/
def junitExpense : ExpenseData := ⟨"Junit", ⟨2024, 3, 10⟩, "Walmart", 20⟩

/-- The store after the two adds of the end-to-end scenario. -/
def scenarioStore : Store :=
  (SQLiteExpenseRepository.add
    (SQLiteExpenseRepository.add emptyStore shakibExpense).1 junitExpense).1

/-- The filter `year=2024, month=3` (no day). -/
def marchFilter : DateFilter := ⟨some 3, some 2024, none⟩

/-- The first persisted row of the scenario. -/
def shakibRow : Expense := ⟨1, "Shakib", ⟨2024, 3, 5⟩, "Costco", 100⟩

/-- The second persisted row of the scenario. -/
def junitRow : Expense := ⟨2, "Junit", ⟨2024, 3, 10⟩, "Walmart", 20⟩

theorem scenario_rows :
    scenarioStore.rows.filter (SQLiteExpenseRepository.matchesFilter marchFilter)
      = [shakibRow, junitRow] := by decide

theorem scenario_list :
    SQLiteExpenseRepository.list_all marchFilter scenarioStore = [shakibRow, junitRow] := by
  decide

theorem scenario_totals_shakib :
    SQLiteExpenseRepository.get_totals marchFilter scenarioStore "Shakib" = some 100 := by
  have h : (scenarioStore.rows.filter
        (SQLiteExpenseRepository.matchesFilter marchFilter)).filter
        (fun r => r.spender == "Shakib") = [shakibRow] := by decide
  simp [SQLiteExpenseRepository.get_totals, h, shakibRow]

theorem scenario_totals_junit :
    SQLiteExpenseRepository.get_totals marchFilter scenarioStore "Junit" = some 20 := by
  have h : (scenarioStore.rows.filter
        (SQLiteExpenseRepository.matchesFilter marchFilter)).filter
        (fun r => r.spender == "Junit") = [junitRow] := by decide
  simp [SQLiteExpenseRepository.get_totals, h, junitRow]

theorem scenario_totals_other (s : String) (h1 : s ≠ "Shakib") (h2 : s ≠ "Junit") :
    SQLiteExpenseRepository.get_totals marchFilter scenarioStore s = none := by
  have hb1 : ("Shakib" == s) = false := beq_eq_false_iff_ne.mpr (Ne.symm h1)
  have hb2 : ("Junit" == s) = false := beq_eq_false_iff_ne.mpr (Ne.symm h2)
  simp [SQLiteExpenseRepository.get_totals, scenario_rows, List.filter_cons,
    shakibRow, junitRow, hb1, hb2]

theorem scenario_message :
    compute_balance_message (SQLiteExpenseRepository.get_totals marchFilter scenarioStore)
      = "Junit owes Shakib 40.00$." := by
  rw [compute_eq_pair, scenario_totals_shakib, scenario_totals_junit]
  rw [show ((some (100:ℚ)).getD 0) = 100 from rfl, show ((some (20:ℚ)).getD 0) = 20 from rfl]
  rw [computePair_junit_owes (by norm_num : (100:ℚ) - (100 + 20) / 2 = 40)
    (by norm_num) (by norm_num) (by norm_num), fmt2_forty]
  decide

/-! ## Claim C1 -/

/-- C1 (amended): a stored record appears in `list(F)` iff every supplied
component of F equals the corresponding component of its date — provided every
supplied year component is at least 1000 (a four-digit year).  Month and day
need no side condition (both sides are two-digit padded); for a filter year
below 1000 the unpadded parameter text never equals the zero-padded stored
year text, so the year condition matches no record at all. -/
theorem list_filter_correctness (st : Store) (f : DateFilter) (r : Expense)
    (hfy : ∀ fy ∈ f.year, 1000 ≤ fy) :
    r ∈ SQLiteExpenseRepository.list_all f st ↔
      r ∈ st.rows ∧
      (∀ fy ∈ f.year, r.date.y = fy) ∧
      (∀ fm ∈ f.month, r.date.m = fm) ∧
      (∀ fd ∈ f.day, r.date.d = fd) := by
  unfold SQLiteExpenseRepository.list_all
  rw [List.mem_insertionSort, List.mem_filter,
    SQLiteExpenseRepository.matchesFilter_iff f r hfy]

/-- A stored record whose date has year 5. -/
def rec5 : Expense := ⟨1, "Shakib", ⟨5, 3, 1⟩, "Costco", 10⟩

/-- A store holding only `rec5`. -/
def st5 : Store := ⟨[rec5], 2⟩

/-- The filter `year=5` (no month, no day). -/
def year5Filter : DateFilter := ⟨none, some 5, none⟩

/-- C1 counterexample: the record with year 5 is stored and every supplied
component of the filter `year=5` equals the corresponding date component, yet
`list` does not return it: SQLite compares the zero-padded year text "0005"
with the bound parameter text `str(5) = "5"`, which differ. -/
theorem list_filter_correctness_cex :
    rec5 ∈ st5.rows ∧
    year5Filter.year = some 5 ∧ rec5.date.y = 5 ∧
    year5Filter.month = none ∧ year5Filter.day = none ∧
    rec5 ∉ SQLiteExpenseRepository.list_all year5Filter st5 := by decide

/-- C1 witness: the amended equivalence, instantiated on the concrete scenario
store with the four-digit filter year 2024. -/
theorem list_filter_correctness_witness :
    (∀ fy ∈ marchFilter.year, 1000 ≤ fy) ∧
    (shakibRow ∈ SQLiteExpenseRepository.list_all marchFilter scenarioStore ↔
      shakibRow ∈ scenarioStore.rows ∧
      (∀ fy ∈ marchFilter.year, shakibRow.date.y = fy) ∧
      (∀ fm ∈ marchFilter.month, shakibRow.date.m = fm) ∧
      (∀ fd ∈ marchFilter.day, shakibRow.date.d = fd)) :=
  ⟨by norm_num [marchFilter],
   list_filter_correctness scenarioStore marchFilter shakibRow (by norm_num [marchFilter])⟩

/-! ## Claim C6 -/

/-- C6 (corrected): the end-to-end scenario.  Both records are returned in
ascending date order, the totals are Shakib ↦ 100 and Junit ↦ 20 with no other
entries, and the balance message is "Junit owes Shakib 40.00$." — Shakib spent
more, so Junit owes him; the direction stated by the original claim is
reversed. -/
theorem end_to_end_scenario :
    SQLiteExpenseRepository.list_all marchFilter scenarioStore = [shakibRow, junitRow] ∧
    SQLiteExpenseRepository.Date.lt shakibRow.date junitRow.date ∧
    SQLiteExpenseRepository.get_totals marchFilter scenarioStore "Shakib" = some 100 ∧
    SQLiteExpenseRepository.get_totals marchFilter scenarioStore "Junit" = some 20 ∧
    (∀ s : String, s ≠ "Shakib" → s ≠ "Junit" →
      SQLiteExpenseRepository.get_totals marchFilter scenarioStore s = none) ∧
    compute_balance_message (SQLiteExpenseRepository.get_totals marchFilter scenarioStore)
      = "Junit owes Shakib 40.00$." :=
  ⟨scenario_list, by decide, scenario_totals_shakib, scenario_totals_junit,
    scenario_totals_other, scenario_message⟩

/-- C6 counterexample: in the scenario the computed message is
"Junit owes Shakib 40.00$.", not the claimed "Shakib owes Junit 40.00$.". -/
theorem end_to_end_scenario_cex :
    compute_balance_message (SQLiteExpenseRepository.get_totals marchFilter scenarioStore)
      ≠ "Shakib owes Junit 40.00$." := by
  rw [scenario_message]
  decide

/-- C6 witness: the totals mapping of the scenario has no entry for a spender
other than the two parties. -/
theorem end_to_end_scenario_witness :
    SQLiteExpenseRepository.get_totals marchFilter scenarioStore "Alice" = none :=
  end_to_end_scenario.2.2.2.2.1 "Alice" (by decide) (by decide)

/-! ## Claim C7 -/

/-- C7 (amended): `add` persists the record with the next auto-assigned id,
which differs from every already-stored id and is strictly smaller than the id
the following `add` will assign (so successive assigned ids strictly
increase); but the method itself returns None, not the assigned id. -/
theorem add_assigns_unique_increasing_ids (st : Store) (e : ExpenseData)
    (h : ∀ r ∈ st.rows, r.id < st.nextId) :
    (SQLiteExpenseRepository.add st e).1.rows
      = st.rows ++ [SQLiteExpenseRepository.mkExpense (SQLiteExpenseRepository.assignedId st) e] ∧
    (∀ r ∈ st.rows, r.id ≠ SQLiteExpenseRepository.assignedId st) ∧
    SQLiteExpenseRepository.assignedId st
      < SQLiteExpenseRepository.assignedId (SQLiteExpenseRepository.add st e).1 ∧
    (∀ r ∈ (SQLiteExpenseRepository.add st e).1.rows,
      r.id < (SQLiteExpenseRepository.add st e).1.nextId) ∧
    (SQLiteExpenseRepository.add st e).2 = none := by
  refine ⟨rfl, ?_, Nat.lt_succ_self _, ?_, rfl⟩
  · intro r hr
    exact Nat.ne_of_lt (h r hr)
  · intro r hr
    have hr2 : r ∈ st.rows ++ [SQLiteExpenseRepository.mkExpense st.nextId e] := hr
    show r.id < st.nextId + 1
    rcases List.mem_append.mp hr2 with hr3 | hr3
    · exact Nat.lt_succ_of_lt (h r hr3)
    · rw [List.mem_singleton.mp hr3]
      exact Nat.lt_succ_self _

/-- C7 counterexample: the first `add` on an empty store assigns id 1 but the
method's returned value is None — it does not return the assigned id. -/
theorem add_returns_none_cex :
    (SQLiteExpenseRepository.add emptyStore shakibExpense).2 = none ∧
    SQLiteExpenseRepository.assignedId emptyStore = 1 ∧
    (SQLiteExpenseRepository.add emptyStore shakibExpense).2 ≠ some 1 := by
  refine ⟨rfl, rfl, ?_⟩
  decide

/-- C7 witness: the amended statement instantiated on the empty store. -/
theorem add_assigns_unique_increasing_ids_witness :
    (∀ r ∈ emptyStore.rows, r.id < emptyStore.nextId) ∧
    ((SQLiteExpenseRepository.add emptyStore shakibExpense).2 = none ∧
     SQLiteExpenseRepository.assignedId emptyStore
       < SQLiteExpenseRepository.assignedId
          (SQLiteExpenseRepository.add emptyStore shakibExpense).1) :=
  ⟨by simp [emptyStore],
   ⟨(add_assigns_unique_increasing_ids emptyStore shakibExpense (by simp [emptyStore])).2.2.2.2,
    (add_assigns_unique_increasing_ids emptyStore shakibExpense (by simp [emptyStore])).2.2.1⟩⟩

/-! ## Claim C2 -/

/-- C2: totals consistency: for a spender appearing in `list(F)`, `totals(F)`
maps it to the sum of the amounts of its records in `list(F)`; a spender with
no record in `list(F)` has no entry in `totals(F)`. -/
theorem totals_consistency (f : DateFilter) (st : Store) (s : String) :
    ((∃ r ∈ SQLiteExpenseRepository.list_all f st, r.spender = s) →
      SQLiteExpenseRepository.get_totals f st s =
        some ((((SQLiteExpenseRepository.list_all f st).filter
            (fun r => r.spender == s)).map Expense.amount).sum)) ∧
    ((∀ r ∈ SQLiteExpenseRepository.list_all f st, r.spender ≠ s) →
      SQLiteExpenseRepository.get_totals f st s = none) := by
  have hperm :
      List.Perm
        ((SQLiteExpenseRepository.list_all f st).filter (fun r => r.spender == s))
        ((st.rows.filter (SQLiteExpenseRepository.matchesFilter f)).filter
          (fun r => r.spender == s)) :=
    (List.perm_insertionSort SQLiteExpenseRepository.rowLe _).filter _
  constructor
  · rintro ⟨r, hr, hrs⟩
    have hmem : r ∈ (st.rows.filter (SQLiteExpenseRepository.matchesFilter f)).filter
        (fun r => r.spender == s) :=
      hperm.mem_iff.mp (List.mem_filter.mpr ⟨hr, by simp [hrs]⟩)
    have hne : ¬(((st.rows.filter (SQLiteExpenseRepository.matchesFilter f)).filter
        (fun r => r.spender == s)).isEmpty = true) := by
      rw [List.isEmpty_iff]
      intro hnil
      rw [hnil] at hmem
      exact List.not_mem_nil r hmem
    simp only [SQLiteExpenseRepository.get_totals]
    rw [if_neg hne]
    exact congrArg some ((hperm.map Expense.amount).sum_eq).symm
  · intro hall
    have hnil : (st.rows.filter (SQLiteExpenseRepository.matchesFilter f)).filter
        (fun r => r.spender == s) = [] := by
      rw [List.filter_eq_nil_iff]
      intro r hrmem
      simp only [beq_iff_eq]
      exact hall r (by
        rw [SQLiteExpenseRepository.list_all, List.mem_insertionSort]
        exact hrmem)
    simp [SQLiteExpenseRepository.get_totals, hnil]

/-- C2 witness: instantiated on the scenario store with spender "Shakib". -/
theorem totals_consistency_witness :
    (∃ r ∈ SQLiteExpenseRepository.list_all marchFilter scenarioStore,
      r.spender = "Shakib") ∧
    SQLiteExpenseRepository.get_totals marchFilter scenarioStore "Shakib" =
      some ((((SQLiteExpenseRepository.list_all marchFilter scenarioStore).filter
          (fun r => r.spender == "Shakib")).map Expense.amount).sum) :=
  ⟨by decide, (totals_consistency marchFilter scenarioStore "Shakib").1 (by decide)⟩

/-! ## Claim C3 -/

/-- C3: `list(F)` is pairwise ordered: strictly ascending by date, and on equal
dates strictly descending by id (most recently added first), given that the
stored ids are distinct — which the PRIMARY KEY column guarantees. -/
theorem list_ordering (f : DateFilter) (st : Store)
    (hids : (st.rows.map Expense.id).Nodup) :
    (SQLiteExpenseRepository.list_all f st).Pairwise
      (fun a b => SQLiteExpenseRepository.Date.lt a.date b.date ∨
        (a.date = b.date ∧ b.id < a.id)) := by
  have hsorted := List.sorted_insertionSort SQLiteExpenseRepository.rowLe
    (st.rows.filter (SQLiteExpenseRepository.matchesFilter f))
  have hne0 : st.rows.Pairwise (fun a b => a.id ≠ b.id) := by
    rw [List.Nodup, List.pairwise_map] at hids
    exact hids
  have hne1 : (st.rows.filter (SQLiteExpenseRepository.matchesFilter f)).Pairwise
      (fun a b => a.id ≠ b.id) :=
    hne0.sublist (List.filter_sublist _)
  have hne2 : ((st.rows.filter (SQLiteExpenseRepository.matchesFilter f)).insertionSort
      SQLiteExpenseRepository.rowLe).Pairwise (fun a b => a.id ≠ b.id) :=
    ((List.perm_insertionSort SQLiteExpenseRepository.rowLe _).pairwise_iff
      (fun h => Ne.symm h)).mpr hne1
  refine (hsorted.and hne2).imp ?_
  rintro a b ⟨hle | ⟨heq, hidle⟩, hne⟩
  · exact Or.inl hle
  · exact Or.inr ⟨heq, lt_of_le_of_ne hidle (Ne.symm hne)⟩

/-- C3 witness: the ordering property on the scenario store. -/
theorem list_ordering_witness :
    (scenarioStore.rows.map Expense.id).Nodup ∧
    (SQLiteExpenseRepository.list_all marchFilter scenarioStore).Pairwise
      (fun a b => SQLiteExpenseRepository.Date.lt a.date b.date ∨
        (a.date = b.date ∧ b.id < a.id)) :=
  ⟨by decide, list_ordering marchFilter scenarioStore (by decide)⟩

/-! ## Claim C9 -/

/-- C9: the store is append-only: `add` only appends a row carrying the caller
fields unchanged, and the new row is immediately visible — membership in any
subsequent `list(F)` is membership in the old rows or being the new row,
subject to the same filter, and any subsequent `totals(F)` reading equals the
old reading plus the new amount exactly when the new row matches the filter
and the spender; `list` and `totals` take no state and return none, so no
core operation mutates or deletes an existing record. -/
theorem append_only_visibility (st : Store) (e : ExpenseData) (f : DateFilter) (s : String) :
    (SQLiteExpenseRepository.add st e).1.rows
      = st.rows ++ [SQLiteExpenseRepository.mkExpense st.nextId e] ∧
    (SQLiteExpenseRepository.mkExpense st.nextId e).spender = e.spender ∧
    (SQLiteExpenseRepository.mkExpense st.nextId e).date = e.date ∧
    (SQLiteExpenseRepository.mkExpense st.nextId e).shop = e.shop ∧
    (SQLiteExpenseRepository.mkExpense st.nextId e).amount = e.amount ∧
    (∀ r, r ∈ SQLiteExpenseRepository.list_all f (SQLiteExpenseRepository.add st e).1 ↔
      ((r ∈ st.rows ∨ r = SQLiteExpenseRepository.mkExpense st.nextId e) ∧
        SQLiteExpenseRepository.matchesFilter f r = true)) ∧
    (SQLiteExpenseRepository.get_totals f (SQLiteExpenseRepository.add st e).1 s =
      if SQLiteExpenseRepository.matchesFilter f (SQLiteExpenseRepository.mkExpense st.nextId e) = true
          ∧ e.spender = s then
        some ((SQLiteExpenseRepository.get_totals f st s).getD 0 + e.amount)
      else SQLiteExpenseRepository.get_totals f st s) := by
  refine ⟨rfl, rfl, rfl, rfl, rfl, ?_, ?_⟩
  · intro r
    rw [SQLiteExpenseRepository.list_all, List.mem_insertionSort, List.mem_filter]
    have hmem : r ∈ (SQLiteExpenseRepository.add st e).1.rows ↔
        (r ∈ st.rows ∨ r = SQLiteExpenseRepository.mkExpense st.nextId e) := by
      show r ∈ st.rows ++ [SQLiteExpenseRepository.mkExpense st.nextId e] ↔ _
      rw [List.mem_append, List.mem_singleton]
    rw [hmem]
  · have hsplit : ((st.rows ++ [SQLiteExpenseRepository.mkExpense st.nextId e]).filter
          (SQLiteExpenseRepository.matchesFilter f)).filter (fun r => r.spender == s)
        = ((st.rows.filter (SQLiteExpenseRepository.matchesFilter f)).filter
            (fun r => r.spender == s))
          ++ (if SQLiteExpenseRepository.matchesFilter f
                  (SQLiteExpenseRepository.mkExpense st.nextId e) = true ∧ e.spender = s
              then [SQLiteExpenseRepository.mkExpense st.nextId e] else []) := by
      rw [List.filter_append, List.filter_append]
      congr 1
      have hspender : (SQLiteExpenseRepository.mkExpense st.nextId e).spender = e.spender := rfl
      rw [List.filter_cons, List.filter_nil]
      by_cases hm : SQLiteExpenseRepository.matchesFilter f
          (SQLiteExpenseRepository.mkExpense st.nextId e) = true
      · rw [if_pos hm, List.filter_cons, List.filter_nil, hspender]
        by_cases hs : e.spender = s
        · rw [if_pos (beq_iff_eq.mpr hs), if_pos ⟨hm, hs⟩]
        · rw [if_neg (by simp [hs]), if_neg (fun hc => hs hc.2)]
      · rw [if_neg hm, List.filter_nil, if_neg (fun hc => hm hc.1)]
    simp only [SQLiteExpenseRepository.get_totals]
    rw [show (SQLiteExpenseRepository.add st e).1.rows
        = st.rows ++ [SQLiteExpenseRepository.mkExpense st.nextId e] from rfl, hsplit]
    by_cases hcond : SQLiteExpenseRepository.matchesFilter f
        (SQLiteExpenseRepository.mkExpense st.nextId e) = true ∧ e.spender = s
    · rw [if_pos hcond, if_pos hcond]
      by_cases hB : ((st.rows.filter (SQLiteExpenseRepository.matchesFilter f)).filter
          (fun r => r.spender == s)).isEmpty = true
      · rw [List.isEmpty_iff] at hB
        rw [hB, List.nil_append, if_neg (by simp : ¬((List.isEmpty
            [SQLiteExpenseRepository.mkExpense st.nextId e]) = true)),
          if_pos List.isEmpty_nil, Option.getD_none]
        simp only [List.map_cons, List.map_nil, List.sum_cons, List.sum_nil,
          add_zero, zero_add]
        rfl
      · rw [if_neg (by simp : ¬((((st.rows.filter
              (SQLiteExpenseRepository.matchesFilter f)).filter (fun r => r.spender == s))
            ++ [SQLiteExpenseRepository.mkExpense st.nextId e]).isEmpty = true)),
          if_neg hB, Option.getD_some]
        simp only [List.map_append, List.sum_append, List.map_cons, List.map_nil,
          List.sum_cons, List.sum_nil, add_zero]
        rfl
    · rw [if_neg hcond, if_neg hcond, List.append_nil]

/-- C9 witness: the new record of an `add` to the scenario store is visible to
a subsequent `list` call. -/
theorem append_only_visibility_witness :
    SQLiteExpenseRepository.mkExpense scenarioStore.nextId shakibExpense
      ∈ SQLiteExpenseRepository.list_all marchFilter
          (SQLiteExpenseRepository.add scenarioStore shakibExpense).1 :=
  ((append_only_visibility scenarioStore shakibExpense marchFilter "Shakib").2.2.2.2.2.1
    (SQLiteExpenseRepository.mkExpense scenarioStore.nextId shakibExpense)).mpr
    ⟨Or.inr rfl, by decide⟩
